import Mathlib

/-!
Verification development for the session-scoped asynchronous request
dispatcher of the zendir-py repository.

The embedded code is the dispatcher in src/nominalpy/connection/client.py
(class Client: the worker loop Client._process_requests, the front door
Client._request, and the lifecycle methods Client._close,
Client._sync_cleanup, Client.__del__) together with the strict-dispatch
transport primitive src/zendir/http/rqst.py (function rqst).

Machine-level concerns (aiohttp sockets, real clocks) are abstracted: a
transport attempt is an oracle value (either a connection-level failure or
a status/body pair), the 1-second inter-retry sleep is an explicit event,
and the cooperative asyncio scheduler is a small-step interleaving
relation.  Every definition is translated from the source; the two
definitions whose names begin with spec are written from the amended
specification wording and compared with the source-side definitions.
-/

/-- Shallow embedding of a structured ordered-key document (a Python
dict or list payload): an ordered association list. -/
abbrev Doc := List (String × String)

/-- Shapes a caller can pass as the data argument of Client._request:
a Python str, a dict/list document, None, or any other object
(unsupported shape). -/
inductive PyData where
  | str (s : String)
  | doc (d : Doc)
  | pyNone
  | other
deriving DecidableEq

/-- Decoded value of a successful exchange: nothing (empty body), a
parsed JSON document, or raw text. -/
abbrev DecodedVal := Option (Doc ⊕ String)

/-- Final outcome stored in the asyncio future of one request: the
decoded success value (future.set_result) or a failure message
(future.set_exception). -/
inductive Outcome where
  | success (v : DecodedVal)
  | failure (e : String)
deriving DecidableEq

/-- Guarded future write.  Every write site of the source first checks
future.done(): client.py lines 185, 206, 246, 253, 264 and 300 all read
if not future.done() before set_result / set_exception.  The model of a
future is Option Outcome; a guarded write fills it only when still
unresolved. -/
def resolveOnce (fut : Option Outcome) (v : Outcome) : Option Outcome :=
  match fut with
  | none => some v
  | some w => some w

/-- Apply a sequence of guarded writes (an arbitrary interleaving of the
worker-side and the caller-visible-timeout-side writes) to a future. -/
def resolveSeq (fut : Option Outcome) : List Outcome → Option Outcome
  | [] => fut
  | v :: vs => resolveSeq (resolveOnce fut v) vs

/-- Number of writes of a guarded-write sequence that actually land in
the future (a guarded write lands exactly when the future is still
unresolved at that moment). -/
def writeCount (fut : Option Outcome) : List Outcome → Nat
  | [] => 0
  | v :: vs => (if fut = none then 1 else 0) + writeCount (resolveOnce fut v) vs

/-- Request body prepared by the worker, before the transport call. -/
inductive BodyVal where
  | bytes (s : String)
  | jsonVal (d : Doc)
deriving DecidableEq

/-- Payload typing rule of the worker (client.py lines 195-211): a str
gets Content-Type text/plain and its UTF-8 bytes as body, except that an
empty (falsy) str yields an absent body; a dict/list gets Content-Type
application/json with the document as body; None gets Content-Type
application/json and no body; anything else raises
ValueError("Data must be a string, list, dict, or None"). -/
def workerPrep : PyData → Except String (String × Option BodyVal)
  | .str s => .ok ("text/plain", if s = "" then none else some (.bytes s))
  | .doc d => .ok ("application/json", some (.jsonVal d))
  | .pyNone => .ok ("application/json", none)
  | .other => .error "Data must be a string, list, dict, or None"

/-- Result of one transport attempt as seen by the worker: either a
connection/protocol-level failure (aiohttp.ClientError) or a completed
HTTP exchange carrying status code and body text. -/
inductive AttemptResult where
  | netFail (e : String)
  | status (code : Nat) (body : String)
deriving DecidableEq

/-- Message of the NominalException raised by the worker on a non-200
status (client.py lines 229-235); an empty body decodes to Python None,
rendered "None" by the f-string. -/
def statusFailMsg (code : Nat) (body : String) : String :=
  "Request failed: " ++ toString code ++ " " ++ (if body = "" then "None" else body)

/-- Classification and decoding of one transport attempt (client.py
lines 220-241): a connection failure raises; a status other than 200
raises NominalException; an empty body yields None; a non-empty body is
decoded as JSON first, falling back to the raw UTF-8 text when
json.loads fails.  The parameter parse embeds json.loads (an external
library call), returning none exactly on JSONDecodeError. -/
def attemptOutcome (parse : String → Option Doc) : AttemptResult → Except String DecodedVal
  | .netFail e => .error e
  | .status code body =>
    if code ≠ 200 then .error (statusFailMsg code body)
    else if body = "" then .ok none
    else
      match parse body with
      | some j => .ok (some (.inl j))
      | none => .ok (some (.inr body))

/-- Observable worker events: the transport receiving attempt number n,
and the fixed await asyncio.sleep(1) between attempts. -/
inductive WEvent where
  | attempt (n : Nat)
  | sleep1
deriving DecidableEq

/-- Message wrapping of the final failure (client.py line 255):
NominalException(f"Request failed: {e}"). -/
def wrapFailMsg (e : String) : String := "Request failed: " ++ e

/-- Body of the retry loop for attempt in range(3) (client.py lines
218-256), at loop index attempt with fuel loop iterations left (fuel is
3 - attempt at every reachable call).  On success the future is resolved
(guarded) and the loop breaks; on failure with attempt < 2 the worker
sleeps one second and continues; on failure at the last attempt the
future is resolved (guarded) with the wrapped failure and the loop
ends. -/
def retryAttempts (parse : String → Option Doc) (tr : Nat → AttemptResult)
    (fut : Option Outcome) (attempt : Nat) : Nat → Option Outcome × List WEvent
  | 0 => (fut, [])
  | fuel + 1 =>
    match attemptOutcome parse (tr attempt) with
    | .ok r => (resolveOnce fut (.success r), [.attempt attempt])
    | .error e =>
      if attempt < 2 then
        let k := retryAttempts parse tr fut (attempt + 1) fuel
        (k.1, .attempt attempt :: .sleep1 :: k.2)
      else
        (resolveOnce fut (.failure (wrapFailMsg e)), [.attempt attempt])

/-- Entry point of the retry loop: for attempt in range(3) starts at
attempt 0 with three iterations available. -/
def retryLoop (parse : String → Option Doc) (tr : Nat → AttemptResult)
    (fut : Option Outcome) : Option Outcome × List WEvent :=
  retryAttempts parse tr fut 0 3

/-- Processing of one dequeued request by the worker (client.py lines
182-257): if the aiohttp session is already closed the future is
resolved (guarded) with "Session closed" and no transport call is made;
if the payload has an unsupported shape the future is resolved (guarded)
with the ValueError message and no transport call is made; otherwise the
retry loop runs. -/
def processItem (parse : String → Option Doc) (tr : Nat → AttemptResult)
    (sessionClosed : Bool) (data : PyData) (fut : Option Outcome) :
    Option Outcome × List WEvent :=
  if sessionClosed then (resolveOnce fut (.failure "Session closed"), [])
  else
    match workerPrep data with
    | .error e => (resolveOnce fut (.failure e), [])
    | .ok _ => retryLoop parse tr fut

theorem resolveSeq_some (w : Outcome) (ws : List Outcome) :
    resolveSeq (some w) ws = some w := by
  induction ws with
  | nil => rfl
  | cons v vs ih => simpa [resolveSeq, resolveOnce] using ih

theorem writeCount_some (w : Outcome) (ws : List Outcome) :
    writeCount (some w) ws = 0 := by
  induction ws with
  | nil => rfl
  | cons v vs ih => simpa [writeCount, resolveOnce] using ih

/-- C2: every write site of the result handle, in the worker and in the
caller-visible timeout path, is the guarded write resolveOnce, so for
any interleaving ws of such writes the handle changes at most once and
ends up holding the value of the first write (so a race between worker
completion and caller-visible timeout never produces a double
resolution). -/
theorem at_most_one_resolution (ws : List Outcome) :
    resolveSeq none ws = ws.head? ∧ writeCount none ws ≤ 1 := by
  cases ws with
  | nil => exact ⟨rfl, by simp [resolveSeq, writeCount]⟩
  | cons v vs =>
    refine ⟨?_, ?_⟩
    · simpa [resolveSeq, resolveOnce] using resolveSeq_some v vs
    · simp [writeCount, resolveOnce, writeCount_some]

/-- C3: when the transport fails on all three attempts (connection or
protocol failure, or a non-200 response), the worker makes exactly three
attempts, sleeps exactly one second between consecutive attempts (and
not after the last), resolves the handle with the wrapped final failure,
and stops retrying. -/
theorem retry_bound (parse : String → Option Doc) (tr : Nat → AttemptResult)
    (e0 e1 e2 : String)
    (h0 : attemptOutcome parse (tr 0) = .error e0)
    (h1 : attemptOutcome parse (tr 1) = .error e1)
    (h2 : attemptOutcome parse (tr 2) = .error e2) :
    retryLoop parse tr none =
      (some (.failure (wrapFailMsg e2)),
        [.attempt 0, .sleep1, .attempt 1, .sleep1, .attempt 2]) := by
  simp [retryLoop, retryAttempts, h0, h1, h2, resolveOnce]

/-- Witness for C3 at a concrete always-failing transport. -/
theorem retry_bound_witness :
    retryLoop (fun _ => none) (fun _ => AttemptResult.netFail "boom") none =
      (some (.failure (wrapFailMsg "boom")),
        [.attempt 0, .sleep1, .attempt 1, .sleep1, .attempt 2]) :=
  retry_bound (fun _ => none) (fun _ => AttemptResult.netFail "boom")
    "boom" "boom" "boom" rfl rfl rfl

/-- Item placed on a session queue by Client._request: the tuple
(method, endpoint, data, future); the future is identified by a number
so items stay comparable. -/
structure QItem where
  method : String
  endpoint : String
  data : PyData
  futureId : Nat
deriving DecidableEq

/-- State of the dispatcher front door: the closed flag and the
per-session-identifier queues (self.queues), as an ordered association
list. -/
structure FrontState where
  closed : Bool
  queues : List (String × List QItem)
deriving DecidableEq

/-- Append an item to the queue of a session identifier, creating the
queue on first use of the identifier (client.py lines 290-295: the
membership check, queue creation and put). -/
def enqueueItem : List (String × List QItem) → String → QItem → List (String × List QItem)
  | [], sid, it => [(sid, [it])]
  | (k, q) :: rest, sid, it =>
    if k = sid then (k, q ++ [it]) :: rest
    else (k, q) :: enqueueItem rest sid it

/-- Observable result of the synchronous part of Client._request (lines
288-295): the error raised (if any), the dispatcher state afterwards,
and the item enqueued (if any).  No network transfer happens in this
phase; the transport is only ever invoked by the worker on dequeued
items. -/
structure SubmitResult where
  err : Option String
  state : FrontState
  enqueued : Option QItem
deriving DecidableEq

/-- Synchronous part of Client._request: when the dispatcher is closed
it raises RuntimeError("Client is closed") before touching any queue;
otherwise it ensures the queue for the session identifier exists and
enqueues the tuple (no payload-shape validation happens here). -/
def requestSubmit (s : FrontState) (method endpoint : String) (data : PyData)
    (sid : String) (fid : Nat) : SubmitResult :=
  if s.closed then ⟨some "Client is closed", s, none⟩
  else
    let it : QItem := ⟨method, endpoint, data, fid⟩
    ⟨none, ⟨s.closed, enqueueItem s.queues sid it⟩, some it⟩

/-- Caller-visible timeout handler of Client._request (lines 296-302):
when the 200-second wait expires, the handle is written (guarded) with
NominalException("Request timed out") and the TimeoutError is re-raised
to the caller; the dispatcher state (including the queue holding the
abandoned request) is not touched.  Returns (state, future, raised). -/
def onCallerTimeout (s : FrontState) (fut : Option Outcome) :
    FrontState × Option Outcome × Bool :=
  (s, resolveOnce fut (.failure "Request timed out"), true)

theorem lookup_enqueueItem (qs : List (String × List QItem)) (sid : String) (it : QItem) :
    List.lookup sid (enqueueItem qs sid it) =
      some ((List.lookup sid qs).getD [] ++ [it]) := by
  induction qs with
  | nil => simp [enqueueItem, List.lookup]
  | cons kv rest ih =>
    obtain ⟨k, q⟩ := kv
    by_cases hk : k = sid
    · subst hk
      simp [enqueueItem, List.lookup]
    · have hks : (sid == k) = false := beq_eq_false_iff_ne.mpr (Ne.symm hk)
      simp [enqueueItem, List.lookup, hk, hks, ih]

theorem resolveOnce_getD (fut : Option Outcome) (v : Outcome) :
    resolveOnce fut v = some (fut.getD v) := by
  cases fut <;> rfl

/-- C4: a request submitted after the dispatcher is closed fails
immediately with the Closed error, enqueues nothing and leaves the state
untouched (hence no network transfer can ever happen for it: the
transport is only invoked by workers on enqueued items). -/
theorem closed_rejects_requests (s : FrontState) (m e : String) (d : PyData)
    (sid : String) (fid : Nat) (h : s.closed = true) :
    (requestSubmit s m e d sid fid).err = some "Client is closed" ∧
    (requestSubmit s m e d sid fid).state = s ∧
    (requestSubmit s m e d sid fid).enqueued = none := by
  simp [requestSubmit, h]

/-- Concrete closed dispatcher state. -/
def closedFront : FrontState := ⟨true, []⟩

/-- Witness for C4 on a concrete closed dispatcher. -/
theorem closed_rejects_requests_witness :
    (requestSubmit closedFront "GET" "/x" PyData.pyNone "default" 0).err =
      some "Client is closed" ∧
    (requestSubmit closedFront "GET" "/x" PyData.pyNone "default" 0).state = closedFront ∧
    (requestSubmit closedFront "GET" "/x" PyData.pyNone "default" 0).enqueued = none :=
  closed_rejects_requests closedFront "GET" "/x" PyData.pyNone "default" 0 rfl

/-- C5: when the caller-visible 200-second wait expires before the
worker produced a result, the dispatcher state is untouched (the
enqueued request is abandoned in place at the end of its session queue,
not removed), the handle is resolved to the Timeout failure exactly when
it was not already resolved (an already-resolved handle keeps its
value), and the timeout is surfaced to the caller by re-raising. -/
theorem caller_timeout_surfaced (s : FrontState) (m e : String) (d : PyData)
    (sid : String) (fid : Nat) (fut : Option Outcome) (h : s.closed = false) :
    (onCallerTimeout (requestSubmit s m e d sid fid).state fut).1 =
      (requestSubmit s m e d sid fid).state ∧
    (onCallerTimeout (requestSubmit s m e d sid fid).state fut).2.1 =
      some (fut.getD (.failure "Request timed out")) ∧
    (onCallerTimeout (requestSubmit s m e d sid fid).state fut).2.2 = true ∧
    List.lookup sid (requestSubmit s m e d sid fid).state.queues =
      some ((List.lookup sid s.queues).getD [] ++ [⟨m, e, d, fid⟩]) := by
  refine ⟨rfl, resolveOnce_getD fut _, rfl, ?_⟩
  simp [requestSubmit, h, lookup_enqueueItem]

/-- Concrete open dispatcher state with no queue yet. -/
def openFront : FrontState := ⟨false, []⟩

/-- Witness for C5 on a concrete open dispatcher and unresolved handle. -/
theorem caller_timeout_surfaced_witness :
    (onCallerTimeout (requestSubmit openFront "GET" "/x" PyData.pyNone "default" 0).state none).1 =
      (requestSubmit openFront "GET" "/x" PyData.pyNone "default" 0).state ∧
    (onCallerTimeout (requestSubmit openFront "GET" "/x" PyData.pyNone "default" 0).state none).2.1 =
      some (.failure "Request timed out") ∧
    (onCallerTimeout (requestSubmit openFront "GET" "/x" PyData.pyNone "default" 0).state none).2.2 =
      true ∧
    List.lookup "default" (requestSubmit openFront "GET" "/x" PyData.pyNone "default" 0).state.queues =
      some ((List.lookup "default" openFront.queues).getD [] ++ [⟨"GET", "/x", PyData.pyNone, 0⟩]) :=
  caller_timeout_surfaced openFront "GET" "/x" PyData.pyNone "default" 0 none rfl

/-- C6 as stated is false: Client._request performs no payload-shape
validation before enqueuing.  Submitting a request with data of an
unsupported shape on an open dispatcher raises nothing and enqueues the
item. -/
theorem invalid_payload_counterexample :
    (requestSubmit openFront "POST" "/e" PyData.other "default" 0).err = none ∧
    (requestSubmit openFront "POST" "/e" PyData.other "default" 0).enqueued =
      some ⟨"POST", "/e", PyData.other, 0⟩ ∧
    (requestSubmit openFront "POST" "/e" PyData.other "default" 0).state.queues =
      [("default", [⟨"POST", "/e", PyData.other, 0⟩])] :=
  ⟨rfl, rfl, rfl⟩

/-- C6 amended: a request whose data has an unsupported shape is
accepted and enqueued by Client._request; the worker then detects the
shape when dequeuing it, resolves the handle (guarded) with the
ValueError message, makes no transport attempt, and never retries it. -/
theorem invalid_payload_amended (s : FrontState) (m e sid : String) (fid : Nat)
    (fut : Option Outcome) (parse : String → Option Doc)
    (tr : Nat → AttemptResult) (h : s.closed = false) :
    (requestSubmit s m e PyData.other sid fid).err = none ∧
    (requestSubmit s m e PyData.other sid fid).enqueued =
      some ⟨m, e, PyData.other, fid⟩ ∧
    processItem parse tr false PyData.other fut =
      (resolveOnce fut (.failure "Data must be a string, list, dict, or None"), []) := by
  refine ⟨?_, ?_, rfl⟩ <;> simp [requestSubmit, h]

/-- Witness for the amended C6 on concrete inputs. -/
theorem invalid_payload_amended_witness :
    (requestSubmit openFront "POST" "/e" PyData.other "default" 1).err = none ∧
    (requestSubmit openFront "POST" "/e" PyData.other "default" 1).enqueued =
      some ⟨"POST", "/e", PyData.other, 1⟩ ∧
    processItem (fun _ => none) (fun _ => AttemptResult.netFail "x") false PyData.other none =
      (resolveOnce none (.failure "Data must be a string, list, dict, or None"), []) :=
  invalid_payload_amended openFront "POST" "/e" "default" 1 none
    (fun _ => none) (fun _ => AttemptResult.netFail "x") rfl

/-- Lifecycle state of the dispatcher: the closed flag, the keys of
self.queues and of self.tasks (in creation order), and a ghost counter
of how many times the teardown body of Client._close has executed. -/
structure LifeState where
  closed : Bool
  queueIds : List String
  workerIds : List String
  teardowns : Nat
deriving DecidableEq

/-- State of the dispatcher right after construction. -/
def LifeState.fresh : LifeState := ⟨false, [], [], 0⟩

/-- Queue-and-worker creation step of Client._request (lines 290-292):
when the identifier has no queue yet, the queue and the worker task are
created together; the membership check and both creations run without
any suspension point, so under the cooperative asyncio scheduler the
whole step is atomic.  When the identifier already has a queue, nothing
happens. -/
def ensureWorker (s : LifeState) (sid : String) : LifeState :=
  if sid ∈ s.queueIds then s
  else { s with queueIds := s.queueIds ++ [sid], workerIds := s.workerIds ++ [sid] }

/-- Teardown transition of Client._close (lines 144-163): a no-op when
already closed; otherwise it marks the dispatcher closed and runs the
teardown body once (cancel every worker, close every connection, clear
the maps), counted by the ghost field. -/
def closeClient (s : LifeState) : LifeState :=
  if s.closed then s
  else ⟨true, [], [], s.teardowns + 1⟩

/-- Process-exit hook Client._sync_cleanup (lines 115-135): returns
immediately when already closed, otherwise drives Client._close on some
event loop (its exception handlers only affect which loop is used). -/
def syncCleanup (s : LifeState) : LifeState :=
  if s.closed then s else closeClient s

/-- Finalizer Client.__del__ (lines 137-142): calls the synchronous
cleanup unless already closed. -/
def delFinalizer (s : LifeState) : LifeState :=
  if s.closed then s else syncCleanup s

/-- The three shutdown triggers of the source: the explicit close, the
atexit hook, and garbage-collection of the client object. -/
inductive Trigger where
  | explicitClose
  | atexitHook
  | finalizer
deriving DecidableEq

/-- Dispatch of one shutdown trigger to its handler. -/
def fireTrigger (s : LifeState) : Trigger → LifeState
  | .explicitClose => closeClient s
  | .atexitHook => syncCleanup s
  | .finalizer => delFinalizer s

/-- Steps of the dispatcher lifecycle: a request on an open dispatcher
(which lazily ensures the queue/worker pair of its session identifier),
or any shutdown trigger. -/
inductive LStep : LifeState → LifeState → Prop where
  | request (s : LifeState) (sid : String) (h : s.closed = false) :
      LStep s (ensureWorker s sid)
  | shutdown (s : LifeState) (t : Trigger) : LStep s (fireTrigger s t)

/-- Lifecycle states reachable from a freshly constructed dispatcher. -/
def LReachable (s : LifeState) : Prop :=
  Relation.ReflTransGen LStep LifeState.fresh s

theorem fireTrigger_closed (s : LifeState) (t : Trigger) (h : s.closed = true) :
    fireTrigger s t = s := by
  cases t <;> simp [fireTrigger, closeClient, syncCleanup, delFinalizer, h]

theorem fireTrigger_open (s : LifeState) (t : Trigger) (h : s.closed = false) :
    fireTrigger s t = ⟨true, [], [], s.teardowns + 1⟩ := by
  cases t <;> simp [fireTrigger, closeClient, syncCleanup, delFinalizer, h]

theorem foldl_fireTrigger_closed (s : LifeState) (ts : List Trigger)
    (h : s.closed = true) : ts.foldl fireTrigger s = s := by
  induction ts with
  | nil => rfl
  | cons t ts ih => simpa [List.foldl, fireTrigger_closed s t h] using ih

/-- Invariant of the lifecycle: the worker-task keys and the queue keys
coincide and contain no duplicate session identifier. -/
def LifeInv (s : LifeState) : Prop :=
  s.workerIds.Nodup ∧ s.workerIds = s.queueIds

theorem ensureWorker_inv (s : LifeState) (sid : String) (h : LifeInv s) :
    LifeInv (ensureWorker s sid) := by
  obtain ⟨hnd, heq⟩ := h
  by_cases hm : sid ∈ s.queueIds
  · simpa [ensureWorker, hm] using ⟨hnd, heq⟩
  · have hm' : sid ∉ s.workerIds := heq ▸ hm
    refine ⟨?_, by simp [ensureWorker, hm, heq]⟩
    simp only [ensureWorker, hm, if_false]
    rw [List.nodup_append]
    exact ⟨hnd, List.nodup_singleton sid,
      fun a ha hb => by simp at hb; exact hm' (hb ▸ ha)⟩

theorem lstep_inv (s t : LifeState) (hst : LStep s t) (h : LifeInv s) :
    LifeInv t := by
  cases hst with
  | request sid hopen => exact ensureWorker_inv s sid h
  | shutdown tg =>
    cases hc : s.closed with
    | true => rw [fireTrigger_closed s tg hc]; exact h
    | false => rw [fireTrigger_open s tg hc]; exact ⟨List.nodup_nil, rfl⟩

theorem ensureWorker_idem (s : LifeState) (sid : String) :
    ensureWorker (ensureWorker s sid) sid = ensureWorker s sid := by
  by_cases hm : sid ∈ s.queueIds
  · simp [ensureWorker, hm]
  · have : sid ∈ (ensureWorker s sid).queueIds := by
      simp [ensureWorker, hm]
    simp [ensureWorker, hm, this]

/-- C7: in every reachable lifecycle state there is at most one worker
per session identifier, workers and queues are created in matching pairs
(so a session queue is only ever read by the one worker holding its
identifier), and re-ensuring an identifier that already has its pair is
a no-op, so concurrent first calls cannot create duplicate workers. -/
theorem one_worker_per_session (s : LifeState) (h : LReachable s) (sid : String) :
    s.workerIds.Nodup ∧ s.workerIds = s.queueIds ∧
    ensureWorker (ensureWorker s sid) sid = ensureWorker s sid := by
  have hinv : LifeInv s := by
    induction h with
    | refl => exact ⟨List.nodup_nil, rfl⟩
    | tail hsteps hstep ih => exact lstep_inv _ _ hstep ih
  exact ⟨hinv.1, hinv.2, ensureWorker_idem s sid⟩

/-- Concrete lifecycle state after one request for session "a". -/
def lifeDemo : LifeState := ensureWorker LifeState.fresh "a"

/-- Witness for C7 at a concrete reachable state. -/
theorem one_worker_per_session_witness :
    lifeDemo.workerIds.Nodup ∧ lifeDemo.workerIds = lifeDemo.queueIds ∧
    ensureWorker (ensureWorker lifeDemo "b") "b" = ensureWorker lifeDemo "b" :=
  one_worker_per_session lifeDemo
    (Relation.ReflTransGen.single (LStep.request LifeState.fresh "a" rfl)) "b"

/-- C8: from any open lifecycle state, firing any nonempty sequence of
shutdown triggers (explicit close, atexit hook, finalizer, in any order)
executes the teardown body exactly once, leaves the dispatcher closed,
and makes every further trigger a no-op.  Each handler is a total
function, so no invocation raises. -/
theorem shutdown_idempotent (s : LifeState) (ts : List Trigger) (t : Trigger)
    (hopen : s.closed = false) (hne : ts ≠ []) :
    (ts.foldl fireTrigger s).teardowns = s.teardowns + 1 ∧
    (ts.foldl fireTrigger s).closed = true ∧
    fireTrigger (ts.foldl fireTrigger s) t = ts.foldl fireTrigger s := by
  cases ts with
  | nil => exact absurd rfl hne
  | cons t0 rest =>
    have hfold : (t0 :: rest).foldl fireTrigger s =
        (⟨true, [], [], s.teardowns + 1⟩ : LifeState) := by
      simp [List.foldl, fireTrigger_open s t0 hopen,
        foldl_fireTrigger_closed (⟨true, [], [], s.teardowns + 1⟩ : LifeState) rest rfl]
    rw [hfold]
    exact ⟨rfl, rfl, fireTrigger_closed _ t rfl⟩

/-- Witness for C8: two triggers on a fresh dispatcher, then a third. -/
theorem shutdown_idempotent_witness :
    (([Trigger.atexitHook, Trigger.finalizer]).foldl fireTrigger LifeState.fresh).teardowns =
      LifeState.fresh.teardowns + 1 ∧
    (([Trigger.atexitHook, Trigger.finalizer]).foldl fireTrigger LifeState.fresh).closed = true ∧
    fireTrigger (([Trigger.atexitHook, Trigger.finalizer]).foldl fireTrigger LifeState.fresh)
      Trigger.explicitClose =
      ([Trigger.atexitHook, Trigger.finalizer]).foldl fireTrigger LifeState.fresh :=
  shutdown_idempotent LifeState.fresh [Trigger.atexitHook, Trigger.finalizer]
    Trigger.explicitClose rfl (List.cons_ne_nil _ _)

/-- Per-session view of the queueing machinery of one session
identifier: enqLog records the arrival (enqueue) order of request
identifiers (queue.put in Client._request), obsLog records the order in
which the transport primitive receives them (session.request in the
worker loop), queue is the backlog still sitting in the asyncio.Queue,
and inflight is the request the worker is currently awaiting on the
wire (the worker body runs the whole exchange before calling queue.get
again, so it holds at most one request by construction). -/
structure SessState where
  enqLog : List Nat
  obsLog : List Nat
  queue : List Nat
  inflight : Option Nat
deriving DecidableEq

/-- Session state before the first request of its identifier. -/
def SessState.idle : SessState := ⟨[], [], [], none⟩

/-- A caller enqueues request r (queue.put at client.py line 295). -/
def SessState.enq (ss : SessState) (r : Nat) : SessState :=
  { ss with enqLog := ss.enqLog ++ [r], queue := ss.queue ++ [r] }

/-- The worker dequeues the head request and hands it to the transport
(queue.get at line 182 followed by session.request at line 220). -/
def SessState.handOff (ss : SessState) (r : Nat) : SessState :=
  { ss with obsLog := ss.obsLog ++ [r], queue := ss.queue.tail, inflight := some r }

/-- The worker finishes the exchange of the in-flight request (the
response is read and the future resolved; the worker is free to dequeue
again). -/
def SessState.done (ss : SessState) : SessState :=
  { ss with inflight := none }

/-- Dispatcher-wide state: one session state per session identifier
(self.queues and the per-identifier workers of self.tasks). -/
structure DispState where
  sess : String → SessState

/-- Dispatcher state at construction time. -/
def DispState.start : DispState := ⟨fun _ => SessState.idle⟩

/-- Cooperative interleaving of the dispatcher: any caller may enqueue
for any session identifier at any time (concurrent callers), and each
per-session worker, being a single sequential loop, may hand the head of
its own queue to the transport only while it has nothing in flight, and
may finish its in-flight exchange.  Workers of distinct identifiers
interleave freely. -/
inductive DStep : DispState → DispState → Prop where
  | enq (s : DispState) (sid : String) (r : Nat) :
      DStep s ⟨Function.update s.sess sid ((s.sess sid).enq r)⟩
  | handOff (s : DispState) (sid : String) (r : Nat)
      (hq : (s.sess sid).queue.head? = some r)
      (hf : (s.sess sid).inflight = none) :
      DStep s ⟨Function.update s.sess sid ((s.sess sid).handOff r)⟩
  | done (s : DispState) (sid : String) (r : Nat)
      (hf : (s.sess sid).inflight = some r) :
      DStep s ⟨Function.update s.sess sid (s.sess sid).done⟩

/-- Dispatcher states reachable from construction. -/
def DReachable (s : DispState) : Prop :=
  Relation.ReflTransGen DStep DispState.start s

/-- Queue invariant of one session: the arrival log is exactly the
transport-observation log followed by the backlog. -/
def SessInv (ss : SessState) : Prop := ss.enqLog = ss.obsLog ++ ss.queue

theorem dstep_inv (s t : DispState) (hst : DStep s t)
    (h : ∀ sid, SessInv (s.sess sid)) : ∀ sid, SessInv (t.sess sid) := by
  cases hst with
  | enq sid r =>
    intro sid'
    by_cases hs : sid' = sid
    · subst hs
      show SessInv (Function.update s.sess sid' ((s.sess sid').enq r) sid')
      rw [Function.update_same]
      show (s.sess sid').enqLog ++ [r] = (s.sess sid').obsLog ++ ((s.sess sid').queue ++ [r])
      rw [h sid', List.append_assoc]
    · show SessInv (Function.update s.sess sid ((s.sess sid).enq r) sid')
      rw [Function.update_noteq hs]
      exact h sid'
  | handOff sid r hq hf =>
    intro sid'
    by_cases hs : sid' = sid
    · subst hs
      show SessInv (Function.update s.sess sid' ((s.sess sid').handOff r) sid')
      rw [Function.update_same]
      have hcons : (s.sess sid').queue = r :: (s.sess sid').queue.tail := by
        cases hQ : (s.sess sid').queue with
        | nil => rw [hQ] at hq; simp at hq
        | cons a l => rw [hQ] at hq; simp at hq; simp [hq]
      show (s.sess sid').enqLog =
        ((s.sess sid').obsLog ++ [r]) ++ (s.sess sid').queue.tail
      rw [h sid', hcons, List.append_assoc]
      rfl
    · show SessInv (Function.update s.sess sid ((s.sess sid).handOff r) sid')
      rw [Function.update_noteq hs]
      exact h sid'
  | done sid r hf =>
    intro sid'
    by_cases hs : sid' = sid
    · subst hs
      show SessInv (Function.update s.sess sid' (s.sess sid').done sid')
      rw [Function.update_same]
      exact h sid'
    · show SessInv (Function.update s.sess sid (s.sess sid).done sid')
      rw [Function.update_noteq hs]
      exact h sid'

/-- C1: in every reachable dispatcher state and for every session
identifier, the sequence of requests the transport has observed is an
initial segment of the enqueue sequence of that identifier (FIFO: the
transport observes them exactly in arrival order, with the backlog
still to come), and at most one request of that identifier is in flight
at any time. -/
theorem fifo_per_session (s : DispState) (h : DReachable s) (sid : String) :
    (∃ rest, (s.sess sid).obsLog ++ rest = (s.sess sid).enqLog) ∧
    (s.sess sid).inflight.toList.length ≤ 1 := by
  have hinv : ∀ sid', SessInv (s.sess sid') := by
    induction h with
    | refl => intro sid'; rfl
    | tail hsteps hstep ih => exact dstep_inv _ _ hstep ih
  refine ⟨⟨(s.sess sid).queue, (hinv sid).symm⟩, ?_⟩
  cases (s.sess sid).inflight <;> simp

/-- Concrete dispatcher state: request 5 enqueued for session "a". -/
def fifoDemo1 : DispState :=
  ⟨Function.update DispState.start.sess "a" ((DispState.start.sess "a").enq 5)⟩

/-- Concrete dispatcher state: request 5 handed to the transport. -/
def fifoDemo2 : DispState :=
  ⟨Function.update fifoDemo1.sess "a" ((fifoDemo1.sess "a").handOff 5)⟩

/-- Witness for C1 at a concrete reachable state: one request enqueued
for session "a" and handed to the transport. -/
theorem fifo_per_session_witness :
    (∃ rest, (fifoDemo2.sess "a").obsLog ++ rest = (fifoDemo2.sess "a").enqLog) ∧
    (fifoDemo2.sess "a").inflight.toList.length ≤ 1 :=
  fifo_per_session fifoDemo2
    (Relation.ReflTransGen.tail
      (Relation.ReflTransGen.single (DStep.enq DispState.start "a" 5))
      (DStep.handOff fifoDemo1 "a" 5 (by decide) (by decide))) "a"

/-- Python truthiness of the data argument as used by rqst.py line 20
(if data:): empty str, empty dict/list and None are falsy; other
unsupported objects are modelled as truthy (a falsy unsupported object
never reaches the shape check there either way). -/
def pyTruthy : PyData → Bool
  | .str "" => false
  | .str _ => true
  | .doc [] => false
  | .doc _ => true
  | .pyNone => false
  | .other => true

/-- Naive embedding of json.dumps on an ordered document (rqst.py line
27); only its byte length is observable through the headers. -/
def jsonDump (d : Doc) : String :=
  "\x7b" ++ String.intercalate ","
    (d.map (fun kv => "\x22" ++ kv.1 ++ "\x22:\x22" ++ kv.2 ++ "\x22")) ++ "\x7d"

/-- Assignment headers[k] = v on a Python dict modelled as an ordered
association list: overwrite in place or append. -/
def setHeader : List (String × String) → String → String → List (String × String)
  | [], k, v => [(k, v)]
  | (k0, v0) :: rest, k, v =>
    if k0 = k then (k0, v) :: rest else (k0, v0) :: setHeader rest k v

/-- Request-body preparation of the transport primitive rqst (rqst.py
lines 19-31): a falsy data value (None, empty str, empty document)
produces no content and leaves the headers exactly as passed (possibly
absent); a truthy str is encoded with Content-Type text/plain and
Content-Length; a truthy dict/list is JSON-encoded with Content-Type
application/json and Content-Length; any other truthy object raises.
Returns (content, headers). -/
def rqstPrep (data : PyData) (headers : Option (List (String × String))) :
    Except String (Option String × Option (List (String × String))) :=
  if pyTruthy data then
    let hs := headers.getD []
    match data with
    | .str s =>
      .ok (some s,
        some (setHeader (setHeader hs "Content-Type" "text/plain")
          "Content-Length" (toString s.utf8ByteSize)))
    | .doc d =>
      .ok (some (jsonDump d),
        some (setHeader (setHeader hs "Content-Type" "application/json")
          "Content-Length" (toString (jsonDump d).utf8ByteSize)))
    | _ => .error "invalid argument \x27body\x27"
  else .ok (none, headers)

/-- Response handling of the transport primitive rqst (rqst.py lines
40-50): a status other than 200 raises with the body text; an empty
body yields None; a non-empty body requires a Content-Type response
header (missing raises), text/plain decodes to the raw text,
application/json runs json.loads (whose decode failure propagates
uncaught), and any other content type falls through the match statement
and yields None. -/
def rqstDecode (parse : String → Option Doc) (status : Nat) (body : String)
    (headers : List (String × String)) : Except String DecodedVal :=
  if status ≠ 200 then .error body
  else if body = "" then .ok none
  else
    match List.lookup "Content-Type" headers with
    | none => .error "missing \x27Content-Type\x27"
    | some ct =>
      if ct = "text/plain" then .ok (some (.inr body))
      else if ct = "application/json" then
        match parse body with
        | some j => .ok (some (.inl j))
        | none => .error "Expecting value"
      else .ok none

/-- Amended dispatcher-side decoding rule, written from the amended
claim wording: only a status of exactly 200 decodes (any other status,
2xx included, is a failure, yielding none here); an empty body decodes
to the absent value; a non-empty body decodes as JSON first, falling
back to raw text. -/
def specDispatchDecode (parse : String → Option Doc) (status : Nat)
    (body : String) : Option DecodedVal :=
  if status = 200 then
    if body = "" then some none
    else
      match parse body with
      | some j => some (some (.inl j))
      | none => some (some (.inr body))
  else none

/-- Amended strict-transport decoding rule, written from the amended
claim wording: only status 200 decodes; an empty body decodes to the
absent value; otherwise decoding is driven by the declared Content-Type,
a missing Content-Type is an error, text/plain gives the raw text,
application/json gives the parsed document (a parse failure is an
error), and an unrecognized content type yields the absent value. -/
def specRqstDecode (parse : String → Option Doc) (status : Nat) (body : String)
    (headers : List (String × String)) : Option DecodedVal :=
  if status = 200 then
    if body = "" then some none
    else
      match List.lookup "Content-Type" headers with
      | none => none
      | some ct =>
        if ct = "text/plain" then some (some (.inr body))
        else if ct = "application/json" then
          (parse body).map (fun j => some (.inl j))
        else some none
  else none

/-- C9 as stated is false on the code in two concrete places: the
strict-dispatch transport returns None (not an error) for a 200 response
whose declared content type is unrecognized, and the dispatcher worker
treats a 2xx status other than 200 (here 204 with an empty body) as a
failure instead of decoding it. -/
theorem response_decoding_counterexample :
    rqstDecode (fun _ => none) 200 "x" [("Content-Type", "application/xml")] =
      .ok none ∧
    attemptOutcome (fun _ => none) (.status 204 "") =
      .error (statusFailMsg 204 "") :=
  ⟨rfl, rfl⟩

/-- C9 amended: for a response with status exactly 200 (any other
status, other 2xx codes included, is a failure), an empty body decodes
to the absent value and a non-empty body decodes as JSON first with raw
text as fallback; in the strict-dispatch transport primitive decoding is
driven by the declared Content-Type, a missing Content-Type is an error,
and an unrecognized content type yields the absent value.  Both decoders
refine the decoding rules written from that wording (errors projected
away by Except.toOption). -/
theorem response_decoding_amended (parse : String → Option Doc) (status : Nat)
    (body : String) (headers : List (String × String)) :
    (attemptOutcome parse (.status status body)).toOption =
      specDispatchDecode parse status body ∧
    (rqstDecode parse status body headers).toOption =
      specRqstDecode parse status body headers := by
  constructor
  · by_cases h : status = 200
    · subst h
      by_cases hb : body = ""
      · simp [attemptOutcome, specDispatchDecode, hb, Except.toOption]
      · cases hp : parse body <;>
          simp [attemptOutcome, specDispatchDecode, hb, hp, Except.toOption]
    · simp [attemptOutcome, specDispatchDecode, h, Except.toOption]
  · by_cases h : status = 200
    · subst h
      by_cases hb : body = ""
      · simp [rqstDecode, specRqstDecode, hb, Except.toOption]
      · cases hl : List.lookup "Content-Type" headers with
        | none => simp [rqstDecode, specRqstDecode, hb, hl, Except.toOption]
        | some ct =>
          by_cases h1 : ct = "text/plain"
          · simp [rqstDecode, specRqstDecode, hb, hl, h1, Except.toOption]
          · by_cases h2 : ct = "application/json"
            · cases hp : parse body <;>
                simp [rqstDecode, specRqstDecode, hb, hl, h1, h2, hp, Except.toOption]
            · simp [rqstDecode, specRqstDecode, hb, hl, h1, h2, Except.toOption]
    · simp [rqstDecode, specRqstDecode, h, Except.toOption]

/-- C10: the dispatcher worker, given the empty string as data, sets
Content-Type text/plain and an absent body (data.encode is skipped on a
falsy str), while the transport primitive rqst treats the empty string
as no payload at all: no content and the headers argument (even when
absent) is returned untouched, with neither Content-Type nor
Content-Length added. -/
theorem empty_string_payload (h : Option (List (String × String))) :
    workerPrep (.str "") = .ok ("text/plain", none) ∧
    rqstPrep (.str "") h = .ok (none, h) :=
  ⟨rfl, rfl⟩
